import Mathlib

/-!
# Verification of the authed-mcp 1Password bridge

Shallow embedding of the repository's auth middleware
(`mcp1_server/server_new.py`), 1Password client (`mcp1_server/op_client.py`)
and middleware bridge (`mcp2_middleware/middleware.py`,
`mcp2_middleware/middleware/middleware.py`), together with theorems settling
the spec's claims about them.

External collaborators (the 1Password store, the upstream MCP session) are
modelled at their interface as oracle functions/records; everything the
repository's own code does is translated statement by statement from the
Python source, including the dead verification block of `server_new.py`,
whose unbound names make every execution of it raise a `NameError`.
-/

namespace MCPSecret

/-! ### Python string primitives

The embedding mirrors Python's `str` operations structurally so that all
definitions reduce in the kernel. -/

/-- A single-quote character as a string (used inside error messages). -/
def sq : String := "\x27"

/-- Python's `str.lower()`: lowercase every character. -/
def pyLower (s : String) : String := String.mk (s.toList.map Char.toLower)

/-- Python's `str.startswith(pre)`. -/
def pyStartsWith (s pre : String) : Bool := pre.toList.isPrefixOf s.toList

/-- Fuelled worker for `pyReplace`: replace every (non-overlapping)
occurrence of `pat` in `s` by `rep`, scanning left to right. -/
def pyReplaceAux : Nat → List Char → List Char → List Char → List Char
  | 0, s, _, _ => s
  | Nat.succ fuel, s, pat, rep =>
    match s with
    | [] => []
    | c :: rest =>
      if pat.isPrefixOf s then rep ++ pyReplaceAux fuel (s.drop pat.length) pat rep
      else c :: pyReplaceAux fuel rest pat rep

/-- Python's `str.replace(pat, rep)` for a nonempty `pat`: replaces every
occurrence, not only a prefix (the middleware uses it to strip `"Bearer "`). -/
def pyReplace (s pat rep : String) : String :=
  String.mk (pyReplaceAux (s.toList.length + 1) s.toList pat.toList rep.toList)

/-! ### AuthGate: `AuthedMiddleware.dispatch` (mcp1_server/server_new.py)

The inbound request is modelled by the two headers the middleware reads plus
the HTTP method.  The three header checks (lines 43-69) are live code.  The
verification block that follows (lines 71-108) is dead on arrival: the names
`DPoPHandler` (line 74) and `httpx`/`authed_auth` (line 89) are unbound —
nothing in the module or the repository imports or defines them — so every
request that passes the header checks raises
`NameError` (name 'DPoPHandler' is not defined) at line 74, before any
proof, header set or POST exists.  The `except Exception` at line 103
catches it and returns `401 {"detail": "Authentication failed: <NameError
text>"}`.  Of the `try` block only line 73
(`verify_url = f"{authed.registry_url}/tokens/verify"`, whose `authed` IS
bound at module level) runs, and its value is discarded.  The model
reproduces exactly this: the middleware never constructs a verification
call, never contacts the authority, and never forwards a request. -/

/-- Inbound HTTP request as seen by `AuthedMiddleware.dispatch`. -/
structure HttpRequest where
  authorization : Option String
  dpop : Option String
  method : String
deriving DecidableEq

/-- Python's `str(NameError)` text for an unbound name lookup. -/
def nameError (n : String) : String :=
  "name " ++ sq ++ n ++ sq ++ " is not defined"

/-- An outbound verification request to the remote authority: what the dead
verification block would have to construct and send.  The theorems below
prove the middleware never records one. -/
structure VerifyCall where
  method : String
  url : String
  headers : List (String × String)
  body_token : String
deriving DecidableEq

/-- What `dispatch` does with the request: return a JSON denial
`{"detail": detail}` with a status code, or forward a request to
`call_next` (the downstream handler). -/
inductive Outcome where
  | denied (status : Nat) (detail : String)
  | forwarded (req : HttpRequest)
deriving DecidableEq

/-- Result of one `dispatch` run: the outcome plus the verification request
sent to the remote authority, if any was attempted. -/
structure DispatchResult where
  outcome : Outcome
  verify_call : Option VerifyCall
deriving DecidableEq

/-- `AuthedMiddleware.dispatch` (server_new.py lines 40-111): the three
header checks of lines 43-69, then the `try` block, whose first unbound
name lookup (`DPoPHandler()`, line 74) raises a `NameError` that the
`except Exception` at line 103 turns into a 401 denial.  The token
extraction (line 60) and URL construction (line 73) run but their values die with
the NameError; `call_next` (line 111) is unreachable. -/
def dispatch (registry_url : String) (request : HttpRequest) : DispatchResult :=
  match request.authorization with
  | none => { outcome := .denied 401 "Authentication required", verify_call := none }
  | some auth_header =>
    if pyStartsWith auth_header "Bearer " = false then
      { outcome := .denied 401 "Authentication failed - no Bearer token"
        verify_call := none }
    else
      -- line 60: token = auth_header.replace("Bearer ", ""); used only by dead code
      let _token := pyReplace auth_header "Bearer " ""
      match request.dpop with
      | none =>
        { outcome := .denied 401 "Authentication failed - missing DPoP proof header"
          verify_call := none }
      | some _dpop_header =>
        -- line 73 runs (authed is bound); the value is never used
        let _verify_url := registry_url ++ "/tokens/verify"
        -- line 74: DPoPHandler is unbound; the NameError is caught at line 103
        { outcome := .denied 401 ("Authentication failed: " ++ nameError "DPoPHandler")
          verify_call := none }

/-! ### OnePasswordClient.get_secret (mcp1_server/op_client.py)

The 1Password store is the external collaborator; its three operations used
by `get_secret` are oracles.  `validate` and `resolve` model
`client.secrets.validate_secret_reference` / `client.secrets.resolve`
(`.error` = raised exception), `getItem` models `client.items.get(item_id,
vault_id)` with its positional argument order. -/

/-- One field of a 1Password item: identifier, label, value. -/
structure OPField where
  id : String
  label : String
  value : String
deriving DecidableEq

/-- A 1Password item as used by the fallback scan: its ordered field list. -/
structure OPItem where
  fields : List OPField
deriving DecidableEq

/-- The 1Password store's operations, as oracles at the SDK boundary. -/
structure OPStore where
  validate : String → Except String Unit
  resolve : String → Except String String
  getItem : String → String → Except String OPItem

/-- `get_secret` either returns one field's value (structured resolution or
fallback scan) or, when no field name was requested, the whole item. -/
inductive SecretResult where
  | fieldValue (v : String)
  | item (it : OPItem)
deriving DecidableEq

/-- The secret reference `op://<vault>/<item>/<field>` built at line 45. -/
def secret_ref (vault_id item_id field_name : String) : String :=
  "op://" ++ vault_id ++ "/" ++ item_id ++ "/" ++ field_name

/-- The predicate of the fallback scan (op_client.py line 67): the field's
label or id equals the requested name case-insensitively. -/
def fieldMatches (field_name : String) (f : OPField) : Bool :=
  pyLower f.label == pyLower field_name || pyLower f.id == pyLower field_name

/-- The fallback path (op_client.py lines 59-72): fetch the item; with a
field name, return the first matching field's value, else raise
`Field not found`; any exception inside the `try` is re-wrapped as
`Error getting item: ...`. -/
def get_item_fallback (store : OPStore) (vault_id item_id : String)
    (field_name : Option String) : Except String SecretResult :=
  match store.getItem item_id vault_id with
  | .error e => .error ("Error getting item: " ++ e)
  | .ok it =>
    match field_name with
    | none => .ok (.item it)
    | some fn =>
      match it.fields.find? (fieldMatches fn) with
      | some f => .ok (.fieldValue f.value)
      | none =>
        .error ("Error getting item: Field " ++ sq ++ fn ++ sq
          ++ " not found in item " ++ sq ++ item_id ++ sq)

instance {ε α : Type} [DecidableEq ε] [DecidableEq α] :
    DecidableEq (Except ε α) := fun x y =>
  match x, y with
  | .ok a, .ok b =>
    if h : a = b then .isTrue (by rw [h]) else .isFalse (fun hc => h (Except.ok.inj hc))
  | .ok _, .error _ => .isFalse (fun hc => Except.noConfusion hc)
  | .error _, .ok _ => .isFalse (fun hc => Except.noConfusion hc)
  | .error a, .error b =>
    if h : a = b then .isTrue (by rw [h]) else .isFalse (fun hc => h (Except.error.inj hc))

/-- A `get_secret` run: its result plus whether the fallback path
(lines 59-72) was reached. -/
structure GetSecretExec where
  result : Except String SecretResult
  fallbackAttempted : Bool
deriving DecidableEq

/-- `OnePasswordClient.get_secret` (op_client.py lines 27-72).  With a field
name: build the secret reference; call `validate_secret_reference`, whose
failure is only printed as a warning (lines 48-51) — execution continues
regardless; then `resolve`.  A successful `resolve` returns immediately; a
raised exception falls through to the fallback (lines 55-57).  With no field
name the fallback path runs directly. -/
def get_secret (store : OPStore) (vault_id item_id : String)
    (field_name : Option String) : GetSecretExec :=
  match field_name with
  | some fn =>
    let ref := secret_ref vault_id item_id fn
    let _validation := store.validate ref
    match store.resolve ref with
    | .ok v => { result := .ok (.fieldValue v), fallbackAttempted := false }
    | .error _ =>
      { result := get_item_fallback store vault_id item_id (some fn)
        fallbackAttempted := true }
  | none =>
    { result := get_item_fallback store vault_id item_id none
      fallbackAttempted := true }

/-! ### Resource `op://vaults/{vault_id}/items/{item_id}`
(`get_secret_resource`, server_new.py lines 145-155 and server.py 129-139)

The handler takes only the vault and item ids — the resource interface has
no field parameter — and always resolves the fixed field name
`"credentials"`; an exception becomes an `{"error": ...}` body. -/

/-- The resource handler's response body: `{"secret": ...}` or
`{"error": ...}`. -/
inductive ResourceResponse where
  | secret (s : SecretResult)
  | errorResp (e : String)
deriving DecidableEq

/-- `get_secret_resource(vault_id, item_id)`: fixed `field = "credentials"`,
then `op_client.get_secret`, with exceptions normalized to an error body. -/
def get_secret_resource (store : OPStore) (vault_id item_id : String) :
    ResourceResponse :=
  match (get_secret store vault_id item_id (some "credentials")).result with
  | .ok s => .secret s
  | .error e => .errorResp e

/-! ### ToolProxy / ResourceProxy (mcp2_middleware/middleware.py)

The upstream MCP session is an oracle record; the module-level
`mcp_session` global is an `Option MCPSession` (it is `None` until a session
materializes).  A handler either returns a payload, returns the normalized
error envelope `{"error": msg}`, or raises an exception that propagates out
of the handler. -/

/-- The upstream MCP session's operations (`.error` = raised exception). -/
structure MCPSession where
  list_resources : Except String String
  read_resource : String → Except String String
  call_tool : String → List (String × Option String) → Except String String

/-- Outcome of one proxy handler run. -/
inductive ProxyOutcome where
  | payload (p : String)
  | errorEnvelope (msg : String)
  | raised (msg : String)
deriving DecidableEq

/-- Python's `AttributeError` message for an attribute access on `None`. -/
def noneAttr (attr : String) : String :=
  sq ++ "NoneType" ++ sq ++ " object has no attribute " ++ sq ++ attr ++ sq

/-- `mcp_session.list_resources()` where `mcp_session` may be `None`
(in middleware.py the connect code is commented out, so it always is):
on `None` the attribute access raises. -/
def session_list_resources : Option MCPSession → Except String String
  | none => .error (noneAttr "list_resources")
  | some s => s.list_resources

/-- `mcp_session.call_tool(name, args)` on a possibly-`None` session. -/
def session_call_tool (session : Option MCPSession) (name : String)
    (args : List (String × Option String)) : Except String String :=
  match session with
  | none => .error (noneAttr "call_tool")
  | some s => s.call_tool name args

/-- Resource `op://vaults` handler `list_vaults` (middleware.py lines
122-137): on any exception it RE-RAISES `Exception("Error listing vaults:
...")` instead of returning an error envelope. -/
def list_vaults (mcp_session : Option MCPSession) : ProxyOutcome :=
  match session_list_resources mcp_session with
  | .ok response => .payload response
  | .error e => .raised ("Error listing vaults: " ++ e)

/-- Tool `onepassword_list_vaults` (middleware.py lines 203-218): every
exception is caught and returned as `{"error": str(e)}`. -/
def onepassword_list_vaults (mcp_session : Option MCPSession) : ProxyOutcome :=
  match session_call_tool mcp_session "onepassword_list_vaults" [] with
  | .ok response => .payload response
  | .error e => .errorEnvelope e

/-! ### Stdio bridge (mcp2_middleware/middleware/middleware.py)

`__main__` (lines 161-172) starts `init_op_client_sync` on a daemon thread
and joins it with a 10-second timeout; a timed-out join does NOT cancel the
thread, which keeps running and eventually writes the global `op_session`.
Tool handlers (lines 116-127) read the global: `None` means not connected,
otherwise the existing session is used — the handlers never connect.

The bridge is modelled as a trace machine: events are the init thread
starting its single connect attempt, the connect completing (writing the
global), the connect failing, and a downstream tool call. -/

namespace StdioMW

open MCPSecret

/-- Tool `onepassword_list_vaults` (middleware/middleware.py lines
116-127): guard on the global session, then `call_tool`, errors caught and
normalized. -/
def onepassword_list_vaults (op_session : Option MCPSession) : ProxyOutcome :=
  match op_session with
  | none => .errorEnvelope "Not connected to 1Password server"
  | some s =>
    match s.call_tool "onepassword_list_vaults" [] with
    | .ok response => .payload response
    | .error e => .errorEnvelope e

/-- Shared bridge state: the global `op_session` and how many connect
attempts the process has performed. -/
structure BridgeState where
  op_session : Option MCPSession
  connect_attempts : Nat

/-- Events of the bridge's lifetime. -/
inductive BridgeEv where
  | initStart
  | initComplete (s : MCPSession)
  | initFail (e : String)
  | toolListVaults

/-- One event's effect.  Only `initStart` counts a connect attempt; only
`initComplete` writes the session; a tool call reads the current global and
performs no connect. -/
def bridge_step (st : BridgeState) : BridgeEv → BridgeState × Option ProxyOutcome
  | .initStart => ({ st with connect_attempts := st.connect_attempts + 1 }, none)
  | .initComplete s => ({ st with op_session := some s }, none)
  | .initFail _ => (st, none)
  | .toolListVaults => (st, some (onepassword_list_vaults st.op_session))

/-- Run a trace of events, collecting tool-call outcomes in order. -/
def bridge_run (st : BridgeState) : List BridgeEv → BridgeState × List ProxyOutcome
  | [] => (st, [])
  | ev :: rest =>
    let (st1, out) := bridge_step st ev
    let (st2, outs) := bridge_run st1 rest
    (st2, (match out with | none => outs | some o => o :: outs))

/-- The process's initial state: no session, no connect attempt yet. -/
def init0 : BridgeState := { op_session := none, connect_attempts := 0 }

end StdioMW

/-! ### OnePasswordClient.connect concurrency (mcp1_server/op_client.py)

`get_secret` begins with `if not self.client: await self.connect()`
(lines 39-40) and `connect` (lines 14-25) unconditionally runs
`self.client = await Client.authenticate(...)`.  Two concurrent callers on
the asyncio loop are modelled with explicit program counters; the only
atomicity is between awaits: the `None`-check together with *starting*
`authenticate` is one step (no await separates them), and the assignment to
`self.client` happens when the awaited authenticate finishes, a second
step. -/

/-- A caller's position in the lazy-connect protocol. -/
inductive ConnPC where
  | check
  | authPending
  | doneConnected
  | doneSkipped
deriving DecidableEq

/-- Shared state of the client plus both callers' program counters.
`client` is `self.client` (a client handle, numbered); `attempts` counts
`Client.authenticate` invocations. -/
structure ConnState where
  client : Option Nat
  attempts : Nat
  pcA : ConnPC
  pcB : ConnPC
deriving DecidableEq

/-- One scheduler step: `who = true` runs caller A (handle `cA`), else
caller B (handle `cB`).  At `check`, a caller seeing `client = None` starts
its own authenticate (there is no lock or in-flight marker in the code);
at `authPending` the finished authenticate's handle is assigned. -/
def conn_step (cA cB : Nat) (st : ConnState) (who : Bool) : ConnState :=
  match who with
  | true =>
    match st.pcA with
    | .check =>
      if st.client = none then
        { st with attempts := st.attempts + 1, pcA := .authPending }
      else
        { st with pcA := .doneSkipped }
    | .authPending => { st with client := some cA, pcA := .doneConnected }
    | .doneConnected => st
    | .doneSkipped => st
  | false =>
    match st.pcB with
    | .check =>
      if st.client = none then
        { st with attempts := st.attempts + 1, pcB := .authPending }
      else
        { st with pcB := .doneSkipped }
    | .authPending => { st with client := some cB, pcB := .doneConnected }
    | .doneConnected => st
    | .doneSkipped => st

/-- Run a schedule (list of caller choices). -/
def conn_run (cA cB : Nat) (st : ConnState) (sched : List Bool) : ConnState :=
  sched.foldl (conn_step cA cB) st

/-- Both callers start at their `if not self.client` check, client unset. -/
def conn_init : ConnState :=
  { client := none, attempts := 0, pcA := .check, pcB := .check }

/-- Connect attempts charged to one caller's position: a caller at
`authPending` or `doneConnected` has started exactly one authenticate. -/
def pcCount : ConnPC → Nat
  | .check => 0
  | .authPending => 1
  | .doneConnected => 1
  | .doneSkipped => 0

/-- A caller is finished when its lazy-connect prelude is done. -/
def connDone (pc : ConnPC) : Prop := pc = .doneConnected ∨ pc = .doneSkipped

/-- Invariant of the two-caller interleaving model: the attempt counter is
exactly the callers' combined charge, and while the client is still unset no
caller can have finished (a skip needs a set client; a connected finish sets
it). -/
def connInv (st : ConnState) : Prop :=
  st.attempts = pcCount st.pcA + pcCount st.pcB
  ∧ (st.client = none →
      st.pcA ≠ .doneSkipped ∧ st.pcB ≠ .doneSkipped
      ∧ st.pcA ≠ .doneConnected ∧ st.pcB ≠ .doneConnected)
  ∧ (st.client ≠ none → st.pcA = .doneConnected ∨ st.pcB = .doneConnected)

/-! ### Concrete fixtures used in witnesses and counterexamples -/

/-- A well-formed inbound request: bearer token plus DPoP proof header. -/
def req0 : HttpRequest :=
  { authorization := some "Bearer tok123", dpop := some "proofP", method := "GET" }

/-- A request carrying a bearer token but no DPoP proof header. -/
def reqNoDpop : HttpRequest :=
  { authorization := some "Bearer tok123", dpop := none, method := "GET" }

/-- An item holding a single field labelled `password`. -/
def pwItem : OPItem :=
  { fields := [{ id := "f1", label := "password", value := "hunter2" }] }

/-- A store that rejects every structured secret reference but serves the
password item; only the fallback scan can succeed against it. -/
def rejectingStore : OPStore :=
  { validate := fun _ => .error "invalid secret reference"
    resolve := fun _ => .error "invalid secret reference"
    getItem := fun _ _ => .ok pwItem }

/-- A store that reports every reference invalid yet still resolves it —
the configuration that separates validation failure from resolve failure. -/
def logProceedStore : OPStore :=
  { validate := fun _ => .error "invalid reference format"
    resolve := fun _ => .ok "resolved-value"
    getItem := fun _ _ => .error "getItem must not be reached" }

/-- An item with no field matching `credentials`. -/
def userItem : OPItem :=
  { fields := [{ id := "f1", label := "username", value := "alice" }] }

/-- A store whose item has no `credentials` field and whose structured
resolution rejects the reference. -/
def noCredStore : OPStore :=
  { validate := fun _ => .error "invalid secret reference"
    resolve := fun _ => .error "invalid secret reference"
    getItem := fun _ _ => .ok userItem }

/-- An upstream session whose every operation fails. -/
def failingSession : MCPSession :=
  { list_resources := .error "boom"
    read_resource := fun _ => .error "boom"
    call_tool := fun _ _ => .error "boom" }

/-- A session that serves the vault-listing tool. -/
def vaultSession : MCPSession :=
  { list_resources := .ok "resources"
    read_resource := fun _ => .ok "resource"
    call_tool := fun name _ =>
      if name = "onepassword_list_vaults" then .ok "[vaults]" else .error "unknown tool" }

/-! ## Theorems settling the claims -/

/-- C1: every inbound request lacking the Authorization header, using a
non-Bearer scheme, or lacking the DPoP proof header is answered by the auth
middleware with a 401 JSON denial carrying a `detail` reason, without any
verification request to the remote authority and without invoking the
downstream handler. -/
theorem C1_missing_headers_denied (registry_url : String) (request : HttpRequest)
    (h : request.authorization = none
       ∨ (∃ a, request.authorization = some a ∧ pyStartsWith a "Bearer " = false)
       ∨ request.dpop = none) :
    ∃ detail,
      (dispatch registry_url request).outcome = .denied 401 detail
      ∧ (dispatch registry_url request).verify_call = none := by
  rcases h with h | ⟨a, ha, hsw⟩ | h
  · exact ⟨"Authentication required", by simp [dispatch, h]⟩
  · exact ⟨"Authentication failed - no Bearer token", by simp [dispatch, ha, hsw]⟩
  · cases hauth : request.authorization with
    | none => exact ⟨"Authentication required", by simp [dispatch, hauth]⟩
    | some a =>
      cases hsw : pyStartsWith a "Bearer " with
      | false =>
        exact ⟨"Authentication failed - no Bearer token", by simp [dispatch, hauth, hsw]⟩
      | true =>
        exact ⟨"Authentication failed - missing DPoP proof header",
          by simp [dispatch, hauth, hsw, h]⟩

/-- C1 witness: a request with a bearer token but no DPoP header is denied
with 401 and no verification call is made. -/
theorem C1_missing_headers_denied_witness :
    ∃ detail,
      (dispatch "https://reg" reqNoDpop).outcome = .denied 401 detail
      ∧ (dispatch "https://reg" reqNoDpop).verify_call = none :=
  C1_missing_headers_denied "https://reg" reqNoDpop (Or.inr (Or.inr rfl))

/-- C2 (code bug): the program never forwards any request to the downstream
handler.  A request carrying a bearer token and a DPoP proof enters the
verification block, where the unbound name `DPoPHandler` raises a NameError
that the `except` turns into a 401 denial — the authority is never
contacted, so no answer of its could make the middleware forward; and for
no input whatsoever is the outcome a forwarded request. -/
theorem C2_no_request_ever_forwarded (registry_url : String) (request : HttpRequest)
    (a p : String)
    (hauth : request.authorization = some a)
    (hsw : pyStartsWith a "Bearer " = true)
    (hdpop : request.dpop = some p) :
    (dispatch registry_url request).outcome
      = .denied 401 ("Authentication failed: " ++ nameError "DPoPHandler")
    ∧ ∀ (registry_url' : String) (request' forwarded' : HttpRequest),
        (dispatch registry_url' request').outcome ≠ .forwarded forwarded' := by
  constructor
  · simp [dispatch, hauth, hsw, hdpop]
  · intro r' req' fwd'
    cases hau : req'.authorization with
    | none => simp [dispatch, hau]
    | some ah =>
      cases hsw' : pyStartsWith ah "Bearer " with
      | false => simp [dispatch, hau, hsw']
      | true =>
        cases hdp : req'.dpop with
        | none => simp [dispatch, hau, hsw', hdp]
        | some pp => simp [dispatch, hau, hsw', hdp]

/-- C2 witness: the well-formed request (valid bearer and proof headers) is
denied with the NameError detail, and forwarding is impossible. -/
theorem C2_no_request_ever_forwarded_witness :
    (dispatch "https://reg" req0).outcome
      = .denied 401 ("Authentication failed: " ++ nameError "DPoPHandler")
    ∧ ∀ (registry_url' : String) (request' forwarded' : HttpRequest),
        (dispatch registry_url' request').outcome ≠ .forwarded forwarded' :=
  C2_no_request_ever_forwarded "https://reg" req0 "Bearer tok123" "proofP"
    rfl (by decide) rfl

/-- C3 (code bug): no outbound verification call is ever constructed or
sent — the NameError at line 74 fires before the proof, the headers and the
POST exist — so for every request the dispatch records no verification
call. -/
theorem C3_no_verification_call_made (registry_url : String) (request : HttpRequest) :
    (dispatch registry_url request).verify_call = none := by
  cases hau : request.authorization with
  | none => simp [dispatch, hau]
  | some ah =>
    cases hsw : pyStartsWith ah "Bearer " with
    | false => simp [dispatch, hau, hsw]
    | true =>
      cases hdp : request.dpop with
      | none => simp [dispatch, hau, hsw, hdp]
      | some pp => simp [dispatch, hau, hsw, hdp]

/-- C4 (code bug): the status mapping of lines 96-108 is unreachable.  A
request that passes the header checks is denied 401 whose detail is the
NameError text — never the authority's response message — and no
verification call is made, so in particular no 2xx authority answer ever
maps to Allow and nothing is ever forwarded. -/
theorem C4_status_mapping_unreachable (registry_url : String) (request : HttpRequest)
    (a p : String)
    (hauth : request.authorization = some a)
    (hsw : pyStartsWith a "Bearer " = true)
    (hdpop : request.dpop = some p) :
    (dispatch registry_url request).outcome
      = .denied 401 ("Authentication failed: " ++ nameError "DPoPHandler")
    ∧ (dispatch registry_url request).verify_call = none := by
  simp [dispatch, hauth, hsw, hdpop]

/-- C4 witness: the header-passing request is denied with the NameError
detail and no verification call is recorded. -/
theorem C4_status_mapping_unreachable_witness :
    (dispatch "https://reg" req0).outcome
      = .denied 401 ("Authentication failed: " ++ nameError "DPoPHandler")
    ∧ (dispatch "https://reg" req0).verify_call = none :=
  C4_status_mapping_unreachable "https://reg" req0 "Bearer tok123" "proofP"
    rfl (by decide) rfl

/-- C5: when structured resolution of the secret reference fails, the
client fetches the full item and scans its fields in order, returning the
value of the first field whose label or id equals the requested name
case-insensitively, via the fallback path. -/
theorem C5_fallback_scan_first_match (store : OPStore)
    (vault_id item_id field_name e : String) (it : OPItem) (f : OPField)
    (hres : store.resolve (secret_ref vault_id item_id field_name) = .error e)
    (hitem : store.getItem item_id vault_id = .ok it)
    (hfind : it.fields.find? (fieldMatches field_name) = some f) :
    (get_secret store vault_id item_id (some field_name)).result
      = .ok (.fieldValue f.value)
    ∧ (get_secret store vault_id item_id (some field_name)).fallbackAttempted = true := by
  simp [get_secret, get_item_fallback, hres, hitem, hfind]

/-- C5 witness: against a store that rejects the reference, requesting
`"password"` from an item holding a field labelled `password` returns that
field's value through the fallback scan. -/
theorem C5_fallback_scan_first_match_witness :
    (get_secret rejectingStore "v1" "i1" (some "password")).result
      = .ok (.fieldValue "hunter2")
    ∧ (get_secret rejectingStore "v1" "i1" (some "password")).fallbackAttempted = true :=
  C5_fallback_scan_first_match rejectingStore "v1" "i1" "password"
    "invalid secret reference" pwItem { id := "f1", label := "password", value := "hunter2" }
    rfl rfl (by decide)

/-- C6 counterexample: against a store that reports the reference invalid
but still resolves it, `get_secret` returns the structured resolution's
value and never attempts the fallback scan — the failed validation is
log-and-proceed, not fail-closed, refuting the claim that a reported-invalid
reference always leads to the fallback scan. -/
theorem C6_counterexample :
    logProceedStore.validate (secret_ref "v" "i" "password")
      = .error "invalid reference format"
    ∧ (get_secret logProceedStore "v" "i" (some "password")).result
        = .ok (.fieldValue "resolved-value")
    ∧ (get_secret logProceedStore "v" "i" (some "password")).fallbackAttempted = false := by
  decide

/-- C6 amended: the fallback scan is attempted exactly when the `resolve`
step itself fails; a failed reference *validation* is only logged and the
structured resolution proceeds regardless, its successful value being
returned with the fallback skipped. -/
theorem C6_amended_fallback_iff_resolve_fails (store : OPStore)
    (vault_id item_id field_name : String) :
    ((get_secret store vault_id item_id (some field_name)).fallbackAttempted = true
      ↔ ∃ e, store.resolve (secret_ref vault_id item_id field_name) = .error e)
    ∧ (∀ v, store.resolve (secret_ref vault_id item_id field_name) = .ok v →
        (get_secret store vault_id item_id (some field_name)).result
          = .ok (.fieldValue v)) := by
  constructor
  · cases hres : store.resolve (secret_ref vault_id item_id field_name) with
    | ok v => simp [get_secret, hres]
    | error e => simp [get_secret, hres]
  · intro v hv
    simp [get_secret, hv]

/-- C6 amended witness: the amended statement at the log-and-proceed
store. -/
theorem C6_amended_fallback_iff_resolve_fails_witness :
    ((get_secret logProceedStore "v" "i" (some "password")).fallbackAttempted = true
      ↔ ∃ e, logProceedStore.resolve (secret_ref "v" "i" "password") = .error e)
    ∧ (∀ v, logProceedStore.resolve (secret_ref "v" "i" "password") = .ok v →
        (get_secret logProceedStore "v" "i" (some "password")).result
          = .ok (.fieldValue v)) :=
  C6_amended_fallback_iff_resolve_fails logProceedStore "v" "i" "password"

/-- C10: a read of the resource `op://vaults/{vault_id}/items/{item_id}`
resolves the fixed field name `credentials` (the resource handler takes no
field parameter), so when the store rejects the structured reference and the
item has no field matching `credentials`, the read returns an error body
rather than the item. -/
theorem C10_resource_fixed_credentials_field (store : OPStore)
    (vault_id item_id e : String) (it : OPItem)
    (hres : store.resolve (secret_ref vault_id item_id "credentials") = .error e)
    (hitem : store.getItem item_id vault_id = .ok it)
    (hnone : it.fields.find? (fieldMatches "credentials") = none) :
    get_secret_resource store vault_id item_id
      = .errorResp ("Error getting item: Field " ++ sq ++ "credentials" ++ sq
          ++ " not found in item " ++ sq ++ item_id ++ sq) := by
  simp [get_secret_resource, get_secret, get_item_fallback, hres, hitem, hnone]

/-- C10 witness: reading an item whose only field is `username` through the
resource path yields an error body, never the item. -/
theorem C10_resource_fixed_credentials_field_witness :
    get_secret_resource noCredStore "v1" "i1"
      = .errorResp ("Error getting item: Field " ++ sq ++ "credentials" ++ sq
          ++ " not found in item " ++ sq ++ "i1" ++ sq) :=
  C10_resource_fixed_credentials_field noCredStore "v1" "i1"
    "invalid secret reference" userItem rfl rfl (by decide)

/-- C7 counterexample: when the bridge session fails, the resource proxy
`list_vaults` re-raises a wrapped exception instead of returning the
normalized `{"error": message}` envelope — a fault propagates past the
proxy boundary, refuting the claim that every proxied tool *and resource*
operation normalizes all faults. -/
theorem C7_counterexample :
    list_vaults (some failingSession) = .raised "Error listing vaults: boom" := by
  decide

/-- C7 amended: every fault in the proxied *tool* handlers is caught and
normalized to an error envelope (the handler only ever returns a payload or
an error envelope, never raises), while the *resource* handlers catch and
re-raise faults as wrapped exceptions that propagate past the proxy layer. -/
theorem C7_amended_tools_normalize_resources_raise (mcp_session : Option MCPSession) :
    ((∃ p, onepassword_list_vaults mcp_session = .payload p)
      ∨ (∃ m, onepassword_list_vaults mcp_session = .errorEnvelope m))
    ∧ (∀ e, session_list_resources mcp_session = .error e →
        list_vaults mcp_session = .raised ("Error listing vaults: " ++ e)) := by
  constructor
  · cases h : session_call_tool mcp_session "onepassword_list_vaults" [] with
    | ok p => exact Or.inl ⟨p, by simp [onepassword_list_vaults, h]⟩
    | error m => exact Or.inr ⟨m, by simp [onepassword_list_vaults, h]⟩
  · intro e he
    simp [list_vaults, he]

/-- C7 amended witness: the amended statement at the all-failing session. -/
theorem C7_amended_tools_normalize_resources_raise_witness :
    ((∃ p, onepassword_list_vaults (some failingSession) = .payload p)
      ∨ (∃ m, onepassword_list_vaults (some failingSession) = .errorEnvelope m))
    ∧ (∀ e, session_list_resources (some failingSession) = .error e →
        list_vaults (some failingSession) = .raised ("Error listing vaults: " ++ e)) :=
  C7_amended_tools_normalize_resources_raise (some failingSession)

/-- C8: if the local join times out while the background connect is still
in flight (a tool call at that moment reports not-connected), and the
connect then completes and writes the session, a subsequent tool call finds
the session present and succeeds through it, with the process still having
performed exactly one connect attempt — the late-arriving session is
adopted, not discarded. -/
theorem C8_late_session_adopted (s : MCPSession) (r : String)
    (hcall : s.call_tool "onepassword_list_vaults" [] = .ok r) :
    (StdioMW.bridge_run StdioMW.init0
        [.initStart, .toolListVaults, .initComplete s, .toolListVaults]).2
      = [.errorEnvelope "Not connected to 1Password server", .payload r]
    ∧ (StdioMW.bridge_run StdioMW.init0
        [.initStart, .toolListVaults, .initComplete s, .toolListVaults]).1.connect_attempts
        = 1
    ∧ (StdioMW.bridge_run StdioMW.init0
        [.initStart, .toolListVaults, .initComplete s, .toolListVaults]).1.op_session
        = some s := by
  simp [StdioMW.bridge_run, StdioMW.bridge_step, StdioMW.onepassword_list_vaults,
    StdioMW.init0, hcall]

/-- C8 witness: the adoption scenario at a concrete session serving the
vault-listing tool. -/
theorem C8_late_session_adopted_witness :
    (StdioMW.bridge_run StdioMW.init0
        [.initStart, .toolListVaults, .initComplete vaultSession, .toolListVaults]).2
      = [.errorEnvelope "Not connected to 1Password server", .payload "[vaults]"]
    ∧ (StdioMW.bridge_run StdioMW.init0
        [.initStart, .toolListVaults, .initComplete vaultSession, .toolListVaults]).1.connect_attempts
        = 1
    ∧ (StdioMW.bridge_run StdioMW.init0
        [.initStart, .toolListVaults, .initComplete vaultSession, .toolListVaults]).1.op_session
        = some vaultSession :=
  C8_late_session_adopted vaultSession "[vaults]" (by decide)

/-- The invariant holds initially: no attempts, both callers at their
check, client unset. -/
lemma connInv_init : connInv conn_init := by
  refine ⟨rfl, fun _ => ?_, fun h => absurd rfl h⟩
  exact ⟨by simp [conn_init], by simp [conn_init], by simp [conn_init], by simp [conn_init]⟩

/-- The invariant is preserved by every scheduler step. -/
lemma connInv_step (cA cB : Nat) (st : ConnState) (who : Bool)
    (h : connInv st) : connInv (conn_step cA cB st who) := by
  obtain ⟨cl, att, pA, pB⟩ := st
  obtain ⟨hcnt, hnone, hsome⟩ := h
  simp only [connInv] at *
  cases who <;> cases pA <;> cases pB <;> cases cl <;>
    simp_all [conn_step, pcCount]

/-- The invariant is preserved by every schedule. -/
lemma connInv_run (cA cB : Nat) (sched : List Bool) (st : ConnState)
    (h : connInv st) : connInv (conn_run cA cB st sched) := by
  induction sched generalizing st with
  | nil => exact h
  | cons who rest ih => exact ih _ (connInv_step cA cB st who h)

/-- C9 counterexample: an interleaving of two concurrent lazy-connect
callers against the uninitialized client in which both callers complete and
TWO connection attempts are performed — each caller saw `self.client` still
unset and started its own `Client.authenticate`, refuting "exactly one
connection attempt" (there is no single-flight guard in
`OnePasswordClient.connect`). -/
theorem C9_counterexample :
    (conn_run 1 2 conn_init [true, false, true, false]).attempts = 2
    ∧ (conn_run 1 2 conn_init [true, false, true, false]).pcA = .doneConnected
    ∧ (conn_run 1 2 conn_init [true, false, true, false]).pcB = .doneConnected := by
  decide

/-- C9 amended: two concurrent establishment attempts against the
uninitialized client perform between one and two connection attempts —
every caller that observes the client still unset starts its own attempt,
so concurrent callers are not single-flighted — and once both callers have
completed, the shared client they all read is connected. -/
theorem C9_amended_attempt_bounds (cA cB : Nat) (sched : List Bool)
    (hA : connDone (conn_run cA cB conn_init sched).pcA)
    (_hB : connDone (conn_run cA cB conn_init sched).pcB) :
    1 ≤ (conn_run cA cB conn_init sched).attempts
    ∧ (conn_run cA cB conn_init sched).attempts ≤ 2
    ∧ (conn_run cA cB conn_init sched).client ≠ none := by
  obtain ⟨hcnt, hnone, hsome⟩ := connInv_run cA cB sched conn_init connInv_init
  have hcl : (conn_run cA cB conn_init sched).client ≠ none := by
    intro hc
    rcases hA with hA | hA
    · exact (hnone hc).2.2.1 hA
    · exact (hnone hc).1 hA
  have hle : ∀ pc, pcCount pc ≤ 1 := by intro pc; cases pc <;> decide
  refine ⟨?_, ?_, hcl⟩
  · rcases hsome hcl with h | h
    · rw [hcnt, h]
      simp [pcCount]
    · rw [hcnt, h]
      simp [pcCount]
  · rw [hcnt]
    have h1 := hle (conn_run cA cB conn_init sched).pcA
    have h2 := hle (conn_run cA cB conn_init sched).pcB
    omega

/-- C9 amended witness: the serialized schedule — caller A completes its
connect before caller B checks — performs exactly one attempt, within the
proved bounds. -/
theorem C9_amended_attempt_bounds_witness :
    1 ≤ (conn_run 1 2 conn_init [true, true, false]).attempts
    ∧ (conn_run 1 2 conn_init [true, true, false]).attempts ≤ 2
    ∧ (conn_run 1 2 conn_init [true, true, false]).client ≠ none :=
  C9_amended_attempt_bounds 1 2 [true, true, false] (Or.inl rfl) (Or.inr rfl)

end MCPSecret
